import Mathlib

/-!
# Verification of the Motor-calculator Telegram bot (`src/bot.py`)

Shallow embedding of the dialog state machine, input validators, completion
client and response dispatcher of `src/bot.py`, together with theorems about
the frozen claims.

Modelling conventions:
* Python `float` values produced by `float(token)` are modelled exactly by
  `PyFloat`: either an exact decimal number `num / 10^exp` (`Dec`), or one of
  the IEEE special values `inf`, `-inf`, `nan`.  Every token the program can
  parse denotes an exact decimal, so no rounding is modelled; IEEE comparison
  semantics (every comparison involving `nan` is false) are preserved.
* Strings are Lean `String`s; `String.length` counts code points, matching
  Python `len`.
* The Telegram/`aiohttp` I/O boundary is modelled by explicit outcome values:
  `ApiOutcome` is what the single HTTP POST in `call_deepseek_api` observes,
  and `SubmitEvent` distinguishes a normally-returning completion call from an
  exception raised inside `perform_calculation`'s `try` block (e.g. a
  `reply_text` failure during dispatch).
-/

/-- An exact decimal number: the value `num / 10 ^ exp`.  This represents the
result of parsing a finite decimal token with Python's `float`. -/
structure Dec where
  num : Int
  exp : Nat
deriving DecidableEq, Repr

/-- Value-level `≤` on exact decimals, by cross-multiplication
(`10 ^ exp` is positive). -/
def Dec.le (a b : Dec) : Bool :=
  decide (a.num * (10 : Int) ^ b.exp ≤ b.num * (10 : Int) ^ a.exp)

/-- Value-level `<` on exact decimals. -/
def Dec.lt (a b : Dec) : Bool :=
  decide (a.num * (10 : Int) ^ b.exp < b.num * (10 : Int) ^ a.exp)

/-- Model of a Python `float`: an exact decimal, an infinity, or `nan`. -/
inductive PyFloat where
  | finite (d : Dec)
  | inf
  | ninf
  | nan
deriving DecidableEq, Repr

/-- IEEE-754 `<=` as Python evaluates it on `float`s: any comparison with
`nan` is false; `-inf` is below and `inf` above every number. -/
def pyLe : PyFloat → PyFloat → Bool
  | .nan, _ => false
  | _, .nan => false
  | .ninf, _ => true
  | _, .ninf => false
  | _, .inf => true
  | .inf, _ => false
  | .finite a, .finite b => a.le b

/-- IEEE-754 `<` as Python evaluates it on `float`s. -/
def pyLt : PyFloat → PyFloat → Bool
  | .nan, _ => false
  | _, .nan => false
  | .ninf, .ninf => false
  | .ninf, _ => true
  | _, .ninf => false
  | .inf, _ => false
  | _, .inf => true
  | .finite a, .finite b => a.lt b

/-- The float `0.0`. -/
def PyFloat.zero : PyFloat := .finite ⟨0, 0⟩

/-- The float `1.0`. -/
def PyFloat.one : PyFloat := .finite ⟨1, 0⟩

/-- The float `100.0`. -/
def PyFloat.hundred : PyFloat := .finite ⟨100, 0⟩

/-- Model of Python's `text.replace(',', '.')` from the four decimal
validators: every comma becomes a dot (single-character substring
replacement is a character map). -/
def commaToDot (s : String) : String :=
  String.mk (s.data.map fun c => if c = ',' then '.' else c)

/-- Strip leading and trailing whitespace, as Python's `float`/`int`
constructors do before parsing. -/
def stripChars (l : List Char) : List Char :=
  ((l.dropWhile Char.isWhitespace).reverse.dropWhile Char.isWhitespace).reverse

/-- Lower-case an ASCII letter (for the case-insensitive `inf`/`nan` words). -/
def lowerAscii (c : Char) : Char :=
  if 'A' ≤ c ∧ c ≤ 'Z' then Char.ofNat (c.toNat + 32) else c

/-- Decimal digits to a natural number. -/
def digitsToNat (l : List Char) : Nat :=
  l.foldl (fun acc c => 10 * acc + (c.toNat - 48)) 0

/-- Combine a mantissa (an integer with `fracLen` digits after the decimal
point) with a signed decimal exponent into an exact decimal. -/
def applyExp (mant : Nat) (fracLen : Nat) (esignNeg : Bool) (e : Nat) : Dec :=
  if esignNeg then ⟨mant, fracLen + e⟩
  else if fracLen ≤ e then ⟨(mant : Int) * (10 : Int) ^ (e - fracLen), 0⟩
  else ⟨mant, fracLen - e⟩

/-- Parse an optional exponent suffix (`e`/`E`, optional sign, digits) after a
mantissa of value `mant` with `fracLen` fractional digits.  The whole rest of
the token must be consumed. -/
def parseExpPart (mant : Nat) (fracLen : Nat) : List Char → Option Dec
  | [] => some ⟨mant, fracLen⟩
  | c :: rest =>
    if c = 'e' ∨ c = 'E' then
      let esignNeg := match rest with | '-' :: _ => true | _ => false
      let rest2 := match rest with
        | '+' :: r => r
        | '-' :: r => r
        | r => r
      let ed := rest2.takeWhile Char.isDigit
      if ed.isEmpty then none
      else if (rest2.dropWhile Char.isDigit).isEmpty then
        some (applyExp mant fracLen esignNeg (digitsToNat ed))
      else none
    else none

/-- Parse an unsigned decimal float token (`digits [. digits] [exp]`, with at
least one mantissa digit), the numeric core of CPython's `float` grammar.
Underscore digit separators and non-ASCII digits are not modelled. -/
def parseUnsignedFloat (l : List Char) : Option Dec :=
  let ip := l.takeWhile Char.isDigit
  let rest := l.dropWhile Char.isDigit
  match rest with
  | '.' :: rest2 =>
    let fp := rest2.takeWhile Char.isDigit
    let rest3 := rest2.dropWhile Char.isDigit
    if ip.isEmpty ∧ fp.isEmpty then none
    else parseExpPart (digitsToNat (ip ++ fp)) fp.length rest3
  | _ => if ip.isEmpty then none else parseExpPart (digitsToNat ip) 0 rest

/-- Model of CPython's `float(token)`: optional sign, then the words
`inf`/`infinity`/`nan` (case-insensitive) or a decimal literal; `none` models
the `ValueError` that the validators catch. -/
def pyFloatOfString (s : String) : Option PyFloat :=
  let l := stripChars s.data
  let neg := match l with | '-' :: _ => true | _ => false
  let body := match l with
    | '+' :: r => r
    | '-' :: r => r
    | r => r
  let lower := body.map lowerAscii
  if lower = ['i', 'n', 'f'] ∨ lower = "infinity".data then
    some (if neg then .ninf else .inf)
  else if lower = ['n', 'a', 'n'] then some .nan
  else
    match parseUnsignedFloat body with
    | none => none
    | some d => some (.finite (if neg then ⟨-d.num, d.exp⟩ else d))

/-- Model of CPython's `int(token)` in base 10: optional sign and decimal
digits after whitespace stripping; `none` models `ValueError`. -/
def pyIntOfString (s : String) : Option Int :=
  let l := stripChars s.data
  let neg := match l with | '-' :: _ => true | _ => false
  let body := match l with
    | '+' :: r => r
    | '-' :: r => r
    | r => r
  if body.isEmpty then none
  else if body.all Char.isDigit then
    some (if neg then -(digitsToNat body : Int) else (digitsToNat body : Int))
  else none

/-- Decimal rendering of an exact decimal value, as Python's `str`/f-string
formatting prints a float whose value is exactly this decimal: optional sign,
integer part, `.`, fractional digits with trailing zeros trimmed (`5.0`,
`0.85`). -/
def decRepr (d : Dec) : String :=
  let sign := if d.num < 0 then "-" else ""
  let n := d.num.natAbs
  let p := (10 : Nat) ^ d.exp
  let frac := n % p
  let fracStr :=
    if frac = 0 then "0"
    else
      String.mk
        ((((List.replicate (d.exp - (toString frac).length) '0') ++
            (toString frac).data).reverse.dropWhile (· = '0')).reverse)
  sign ++ toString (n / p) ++ "." ++ fracStr

/-- Rendering of a `PyFloat` by a Python f-string. -/
def pyRepr : PyFloat → String
  | .finite d => decRepr d
  | .inf => "inf"
  | .ninf => "-inf"
  | .nan => "nan"

/-- The prompt template of `perform_calculation` (lines 180–197 of
`src/bot.py`), an f-string over the five collected values; `data['phase']`
is interpolated twice. -/
def buildPrompt (p v eff pf : PyFloat) (ph : Int) : String :=
  "\n        Рассчитай номинальный ток электродвигателя со следующими параметрами:\n        - Мощность: " ++
  pyRepr p ++
  " кВт\n        - Напряжение: " ++
  pyRepr v ++
  " В\n        - КПД: " ++
  pyRepr eff ++
  "%\n        - Коэффициент мощности: " ++
  pyRepr pf ++
  "\n        - Количество фаз: " ++
  toString ph ++
  "\n        \n        Предоставь подробный расчет с формулами и объяснениями:\n        1. Формула расчета для " ++
  toString ph ++
  "-фазной сети\n        2. Пошаговый расчет с подстановкой значений\n        3. Итоговое значение тока в Амперах\n        4. Рекомендации по выбору защитной аппаратуры (автоматический выключатель, тепловое реле)\n        5. Укажи стандартные значения для подобных двигателей\n        \n        Ответ должен быть четким, технически точным и полезным для инженера.\n        Используй только русский язык в ответе.\n        "

/-- Fixed parameters of the single HTTP POST issued by `call_deepseek_api`:
endpoint, model identifier, temperature, output-length ceiling, and the
request timeout passed to `session.post` (line 51 of `src/bot.py`). -/
structure RequestConfig where
  url : String
  model : String
  temperature : Dec
  maxTokens : Nat
  timeout : Nat
deriving DecidableEq, Repr

/-- The request configuration `call_deepseek_api` uses. -/
def deepseekRequest : RequestConfig :=
  { url := "https://api.deepseek.com/v1/chat/completions"
    model := "deepseek-chat"
    temperature := ⟨3, 1⟩
    maxTokens := 2000
    timeout := 30 }

/-- What the single request inside `call_deepseek_api` observes: either an
HTTP response (with its status code and, for the JSON-decoding and
`result["choices"][0]["message"]["content"]` extraction, either the answer
text or the message of the exception that extraction raises), or a raised
transport error — `aiohttp` failures and the `timeout=30` expiry
(`asyncio.TimeoutError`) both surface as exceptions caught by the handler's
`except` clause. -/
inductive ApiOutcome where
  | response (status : Nat) (extract : Except String String)
  | transportError (cause : String)

/-- Embedding of `call_deepseek_api` (lines 35–61 of `src/bot.py`): status
200 with a well-formed body returns the answer text; a malformed body raises,
landing in the `except` branch; any other status returns the API-error
string; any transport exception returns the connection-error string.  The
function always returns a string — errors are encoded in the returned text,
never raised to the caller. -/
def call_deepseek_api : ApiOutcome → String
  | .response status extract =>
    if status = 200 then
      match extract with
      | .ok content => content
      | .error e => "❌ Ошибка соединения с DeepSeek: " ++ e
    else "❌ Ошибка API DeepSeek: " ++ toString status
  | .transportError e => "❌ Ошибка соединения с DeepSeek: " ++ e

/-- Outcome of one submission attempt inside `perform_calculation`'s `try`
block: either the completion call returns normally (with whatever
`call_deepseek_api` observed) and dispatch succeeds, or some exception is
raised during prompt construction or dispatch (e.g. `reply_text` failing)
and control lands in the `except Exception` branch (lines 221–226). -/
inductive SubmitEvent where
  | completes (api : ApiOutcome)
  | raises (e : String)

/-- The banner prefixed to the model's answer
(`result_text = f"🔧 *Результаты расчета:*\n\n{deepseek_response}"`). -/
def resultBanner : String := "🔧 *Результаты расчета:*\n\n"

/-- The slicing loop of lines 206–216 of `src/bot.py`, on the underlying
character list: `range(0, len, 4096)` slices of width 4096. -/
def chunkText (l : List Char) : List (List Char) :=
  if l.length ≤ 4096 then [l]
  else l.take 4096 :: chunkText (l.drop 4096)
termination_by l.length
decreasing_by simp; omega

/-- The Response Dispatcher (lines 205–216 of `src/bot.py`): a message longer
than 4096 code units is sent as consecutive 4096-wide slices, otherwise as a
single message. -/
def splitLongMessage (s : String) : List String :=
  if s.length > 4096 then (chunkText s.data).map String.mk
  else [s]

/-- One in-progress session: the `context.user_data` dict of a user, holding
the keys `'power'`, `'voltage'`, `'efficiency'`, `'power_factor'`,
`'phase'` when set. -/
structure Session where
  power : Option PyFloat
  voltage : Option PyFloat
  efficiency : Option PyFloat
  power_factor : Option PyFloat
  phase : Option Int
deriving DecidableEq, Repr

/-- A fresh/cleared `user_data` dict (also the result of
`context.user_data.clear()`). -/
def Session.empty : Session := ⟨none, none, none, none, none⟩

/-- The `ConversationHandler` states `POWER, VOLTAGE, EFFICIENCY,
POWER_FACTOR, PHASE = range(5)` plus `ConversationHandler.END`. -/
inductive ChatState where
  | POWER
  | VOLTAGE
  | EFFICIENCY
  | POWER_FACTOR
  | PHASE
  | END
deriving DecidableEq, Repr

/-- Embedding of `perform_calculation` (lines 174–226 of `src/bot.py`): on a
normally-returning completion call, the banner-prefixed response is chunked
and dispatched, and `context.user_data.clear()` empties the session; if an
exception is raised inside the `try` block, the `except` branch sends the
generic error text and the session is NOT cleared.  Returns the dispatched
messages and the session afterwards.  (The prompt string built at lines
180–197 is modelled by `buildPrompt`; the completion call's observation is
the `ApiOutcome` carried by the event.) -/
def perform_calculation (data : Session) (ev : SubmitEvent) :
    List String × Session :=
  match ev with
  | .completes api =>
    (splitLongMessage (resultBanner ++ call_deepseek_api api), Session.empty)
  | .raises _ =>
    (["❌ Произошла ошибка при расчете. Попробуйте снова."], data)

/-- Embedding of `start` (lines 63–73 of `src/bot.py`): sends the greeting
and returns `POWER`; it does not touch `context.user_data`. -/
def start (s : Session) : Session × ChatState := (s, .POWER)

/-- Embedding of `power_input` (lines 75–91): parse with commas replaced by
dots; `ValueError` or `power <= 0` re-prompts in `POWER` leaving the session
unchanged; otherwise `user_data['power']` is set and the state advances. -/
def power_input (t : String) (s : Session) : Session × ChatState :=
  match pyFloatOfString (commaToDot t) with
  | none => (s, .POWER)
  | some p =>
    if pyLe p PyFloat.zero then (s, .POWER)
    else ({ s with power := some p }, .VOLTAGE)

/-- Embedding of `voltage_input` (lines 92–107). -/
def voltage_input (t : String) (s : Session) : Session × ChatState :=
  match pyFloatOfString (commaToDot t) with
  | none => (s, .VOLTAGE)
  | some p =>
    if pyLe p PyFloat.zero then (s, .VOLTAGE)
    else ({ s with voltage := some p }, .EFFICIENCY)

/-- Embedding of `efficiency_input` (lines 109–124): rejected when
`efficiency <= 0 or efficiency > 100`. -/
def efficiency_input (t : String) (s : Session) : Session × ChatState :=
  match pyFloatOfString (commaToDot t) with
  | none => (s, .EFFICIENCY)
  | some p =>
    if pyLe p PyFloat.zero || pyLt PyFloat.hundred p then (s, .EFFICIENCY)
    else ({ s with efficiency := some p }, .POWER_FACTOR)

/-- Embedding of `power_factor_input` (lines 126–147): rejected when
`power_factor <= 0 or power_factor > 1`. -/
def power_factor_input (t : String) (s : Session) : Session × ChatState :=
  match pyFloatOfString (commaToDot t) with
  | none => (s, .POWER_FACTOR)
  | some p =>
    if pyLe p PyFloat.zero || pyLt PyFloat.one p then (s, .POWER_FACTOR)
    else ({ s with power_factor := some p }, .PHASE)

/-- Embedding of `phase_input` (lines 149–172): `int(text)` without comma
pre-processing; `ValueError` or `phase not in [1, 3]` re-prompts in `PHASE`;
otherwise `user_data['phase']` is set, `perform_calculation` runs
synchronously (via `asyncio.run`), and the handler returns
`ConversationHandler.END`. -/
def phase_input (t : String) (sub : SubmitEvent) (s : Session) :
    Session × ChatState :=
  match pyIntOfString t with
  | none => (s, .PHASE)
  | some n =>
    if ¬(n = 1 ∨ n = 3) then (s, .PHASE)
    else ((perform_calculation { s with phase := some n } sub).2, .END)

/-- Embedding of `cancel` (lines 228–237): clears `user_data` and ends the
conversation. -/
def cancel (_s : Session) : Session × ChatState := (Session.empty, .END)

/-- An inbound event of the dialog: the `/start` (or `/calc`) command, the
`/cancel` command, or an ordinary text message.  A text event carries the
submission outcome used in case it completes the dialog from `PHASE`. -/
inductive Event where
  | begin
  | cancel
  | text (t : String) (sub : SubmitEvent)

/-- One step of the conversation, as `main`'s `ConversationHandler`
(lines 262–273 of `src/bot.py`) routes events: `/start` re-enters the dialog
in any state (`allow_reentry=True`) via `start`; `/cancel` is a fallback of
the active conversation (a no-op once the conversation has ended); text is
routed to the handler of the current state, and is unhandled after `END`. -/
def step : Session × ChatState → Event → Session × ChatState
  | (s, _), .begin => start s
  | (s, st), .cancel => if st = .END then (s, st) else cancel s
  | (s, .POWER), .text t _ => power_input t s
  | (s, .VOLTAGE), .text t _ => voltage_input t s
  | (s, .EFFICIENCY), .text t _ => efficiency_input t s
  | (s, .POWER_FACTOR), .text t _ => power_factor_input t s
  | (s, .PHASE), .text t sub => phase_input t sub s
  | (s, .END), .text _ _ => (s, .END)

/-- Configurations reachable from dialog entry (a fresh session in
`POWER`) by any sequence of begin commands, text inputs and cancel
commands. -/
inductive Reachable : Session × ChatState → Prop where
  | init : Reachable (Session.empty, .POWER)
  | step : ∀ c e, Reachable c → Reachable (step c e)

/-! ## The populated-fields invariant -/

/-- The five per-field presence flags of a session, in validator order
`power, voltage, efficiency, power_factor, phase`. -/
def fieldsVec (s : Session) : List Bool :=
  [s.power.isSome, s.voltage.isSome, s.efficiency.isSome,
   s.power_factor.isSome, s.phase.isSome]

/-- The presence flags the spec expects in each state: exactly the fields
before the state in validator order (a Terminal session is destroyed, so
`END` expects none). -/
def expectedVec : ChatState → List Bool
  | .POWER => [false, false, false, false, false]
  | .VOLTAGE => [true, false, false, false, false]
  | .EFFICIENCY => [true, true, false, false, false]
  | .POWER_FACTOR => [true, true, true, false, false]
  | .PHASE => [true, true, true, true, false]
  | .END => [false, false, false, false, false]

/-- The populated fields are downward closed in validator order: a field is
present only if the field before it is present. -/
def prefixClosed (s : Session) : Prop :=
  (s.voltage.isSome = true → s.power.isSome = true) ∧
  (s.efficiency.isSome = true → s.voltage.isSome = true) ∧
  (s.power_factor.isSome = true → s.efficiency.isSome = true) ∧
  (s.phase.isSome = true → s.power_factor.isSome = true)

/-- The fields that are necessarily populated on entry to each state. -/
def requiredFields : ChatState → Session → Prop
  | .POWER, _ => True
  | .VOLTAGE, s => s.power.isSome = true
  | .EFFICIENCY, s => s.power.isSome = true ∧ s.voltage.isSome = true
  | .POWER_FACTOR, s =>
    s.power.isSome = true ∧ s.voltage.isSome = true ∧
    s.efficiency.isSome = true
  | .PHASE, s =>
    s.power.isSome = true ∧ s.voltage.isSome = true ∧
    s.efficiency.isSome = true ∧ s.power_factor.isSome = true
  | .END, _ => True

/-! ## Fixed data used by the claim theorems -/

/-- Fixed template text before the interpolated power value. -/
def promptPart0 : String :=
  "\n        Рассчитай номинальный ток электродвигателя со следующими параметрами:\n        - Мощность: "

/-- Fixed template text between the power and voltage values. -/
def promptPart1 : String := " кВт\n        - Напряжение: "

/-- Fixed template text between the voltage and efficiency values. -/
def promptPart2 : String := " В\n        - КПД: "

/-- Fixed template text between the efficiency and power-factor values. -/
def promptPart3 : String := "%\n        - Коэффициент мощности: "

/-- Fixed template text before the phase count in the parameter list. -/
def promptPart4 : String := "\n        - Количество фаз: "

/-- Fixed template text before the phase count in the which-formula
instruction. -/
def promptPart5 : String :=
  "\n        \n        Предоставь подробный расчет с формулами и объяснениями:\n        1. Формула расчета для "

/-- Fixed template text after the second phase interpolation. -/
def promptPart6 : String :=
  "-фазной сети\n        2. Пошаговый расчет с подстановкой значений\n        3. Итоговое значение тока в Амперах\n        4. Рекомендации по выбору защитной аппаратуры (автоматический выключатель, тепловое реле)\n        5. Укажи стандартные значения для подобных двигателей\n        \n        Ответ должен быть четким, технически точным и полезным для инженера.\n        Используй только русский язык в ответе.\n        "

/-- A session with all five fields collected (`5 кВт`, `380 В`, `85 %`,
`cos φ = 0.85`, three phases). -/
def fullSession : Session :=
  ⟨some (.finite ⟨5, 0⟩), some (.finite ⟨380, 0⟩), some (.finite ⟨85, 0⟩),
   some (.finite ⟨85, 2⟩), some 3⟩

/-- The configuration reached from dialog entry by: a valid power token
`"5"`, then the `begin` command again mid-dialog. -/
def midDialogRestart : Session × ChatState :=
  step (step (Session.empty, ChatState.POWER)
    (Event.text "5" (SubmitEvent.raises ""))) Event.begin

/-! ## Helper lemmas about the Response Dispatcher -/

theorem chunkText_flatten (l : List Char) : (chunkText l).flatten = l := by
  induction l using chunkText.induct with
  | case1 l h =>
    rw [chunkText]
    simp [h]
  | case2 l h ih =>
    rw [chunkText]
    simp only [h, if_false, List.flatten_cons, ih]
    exact List.take_append_drop 4096 l

theorem chunkText_mem_length (l c : List Char) (h : c ∈ chunkText l) :
    c.length ≤ 4096 := by
  induction l using chunkText.induct with
  | case1 l hl =>
    rw [chunkText, if_pos hl] at h
    rcases List.mem_singleton.1 h with rfl
    exact hl
  | case2 l hl ih =>
    rw [chunkText] at h
    simp only [hl, if_false, List.mem_cons] at h
    rcases h with h | h
    · subst h
      simp
    · exact ih h

theorem splitLongMessage_join (s : String) :
    String.join (splitLongMessage s) = s := by
  unfold splitLongMessage
  split
  · rw [String.join_eq]
    have h2 : ((chunkText s.data).map String.mk).map String.data = chunkText s.data := by
      rw [List.map_map, show String.data ∘ String.mk = id from funext fun c => rfl,
        List.map_id]
    rw [h2, chunkText_flatten]
  · rw [String.join_eq]
    simp

theorem splitLongMessage_le (s seg : String) (h : seg ∈ splitLongMessage s) :
    seg.length ≤ 4096 := by
  unfold splitLongMessage at h
  split at h
  · rcases List.mem_map.1 h with ⟨c, hc, rfl⟩
    simpa [String.length_mk] using chunkText_mem_length s.data c hc
  · rename_i hlen
    rcases List.mem_singleton.1 h with rfl
    omega

theorem splitLongMessage_short (s : String) (h : s.length ≤ 4096) :
    splitLongMessage s = [s] := by
  unfold splitLongMessage
  rw [if_neg]
  omega


/-- On `/start` the conversation re-enters `POWER` and `user_data` is kept. -/
theorem step_begin (s : Session) (st : ChatState) :
    step (s, st) Event.begin = (s, ChatState.POWER) := by
  cases st <;> rfl

/-- On `/cancel` in an active conversation the session is cleared. -/
theorem step_cancel (s : Session) (st : ChatState) (h : st ≠ ChatState.END) :
    step (s, st) Event.cancel = (Session.empty, ChatState.END) := by
  cases st <;> first | rfl | exact absurd rfl h

/-- After the conversation has ended, `/cancel` is not routed to it. -/
theorem step_cancel_end (s : Session) :
    step (s, ChatState.END) Event.cancel = (s, ChatState.END) := rfl

theorem reachable_invariant (c : Session × ChatState) (h : Reachable c) :
    prefixClosed c.1 ∧ requiredFields c.2 c.1 := by
  induction h with
  | init => simp [prefixClosed, requiredFields, Session.empty]
  | step c e _ ih =>
    obtain ⟨s, st⟩ := c
    obtain ⟨hpc, hreq⟩ := ih
    cases e with
    | begin =>
      rw [step_begin]
      exact ⟨hpc, trivial⟩
    | cancel =>
      by_cases hend : st = ChatState.END
      · subst hend
        rw [step_cancel_end]
        exact ⟨hpc, trivial⟩
      · rw [step_cancel s st hend]
        simp [prefixClosed, requiredFields, Session.empty]
    | text t sub =>
      cases st with
      | POWER =>
        show prefixClosed (power_input t s).1 ∧
          requiredFields (power_input t s).2 (power_input t s).1
        unfold power_input
        cases hp : pyFloatOfString (commaToDot t) with
        | none => exact ⟨hpc, trivial⟩
        | some p =>
          by_cases hr : pyLe p PyFloat.zero = true
          · simp only [hr, if_pos rfl]
            exact ⟨hpc, trivial⟩
          · simp only [hr, if_false]
            obtain ⟨h1, h2, h3, h4⟩ := hpc
            exact ⟨⟨fun _ => rfl, h2, h3, h4⟩, rfl⟩
      | VOLTAGE =>
        show prefixClosed (voltage_input t s).1 ∧
          requiredFields (voltage_input t s).2 (voltage_input t s).1
        unfold voltage_input
        cases hp : pyFloatOfString (commaToDot t) with
        | none => exact ⟨hpc, hreq⟩
        | some p =>
          by_cases hr : pyLe p PyFloat.zero = true
          · simp only [hr, if_pos rfl]
            exact ⟨hpc, hreq⟩
          · simp only [hr, if_false]
            obtain ⟨h1, h2, h3, h4⟩ := hpc
            exact ⟨⟨fun _ => hreq, fun _ => rfl, h3, h4⟩, hreq, rfl⟩
      | EFFICIENCY =>
        show prefixClosed (efficiency_input t s).1 ∧
          requiredFields (efficiency_input t s).2 (efficiency_input t s).1
        unfold efficiency_input
        cases hp : pyFloatOfString (commaToDot t) with
        | none => exact ⟨hpc, hreq⟩
        | some p =>
          by_cases hr :
              (pyLe p PyFloat.zero || pyLt PyFloat.hundred p) = true
          · simp only [hr, if_pos rfl]
            exact ⟨hpc, hreq⟩
          · simp only [hr, if_false]
            obtain ⟨h1, h2, h3, h4⟩ := hpc
            exact ⟨⟨fun _ => hreq.1, fun _ => hreq.2, fun _ => rfl, h4⟩,
              hreq.1, hreq.2, rfl⟩
      | POWER_FACTOR =>
        show prefixClosed (power_factor_input t s).1 ∧
          requiredFields (power_factor_input t s).2 (power_factor_input t s).1
        unfold power_factor_input
        cases hp : pyFloatOfString (commaToDot t) with
        | none => exact ⟨hpc, hreq⟩
        | some p =>
          by_cases hr : (pyLe p PyFloat.zero || pyLt PyFloat.one p) = true
          · simp only [hr, if_pos rfl]
            exact ⟨hpc, hreq⟩
          · simp only [hr, if_false]
            obtain ⟨h1, h2, h3, h4⟩ := hpc
            exact ⟨⟨fun _ => hreq.1, fun _ => hreq.2.1, fun _ => hreq.2.2,
              fun _ => rfl⟩, hreq.1, hreq.2.1, hreq.2.2, rfl⟩
      | PHASE =>
        show prefixClosed (phase_input t sub s).1 ∧
          requiredFields (phase_input t sub s).2 (phase_input t sub s).1
        unfold phase_input
        cases hp : pyIntOfString t with
        | none => exact ⟨hpc, hreq⟩
        | some n =>
          by_cases hv : ¬(n = 1 ∨ n = 3)
          · simp only [if_pos hv]
            exact ⟨hpc, hreq⟩
          · simp only [if_neg hv]
            cases sub with
            | completes api =>
              exact ⟨by simp [perform_calculation, prefixClosed, Session.empty],
                trivial⟩
            | raises e =>
              obtain ⟨h1, h2, h3, h4⟩ := hpc
              exact ⟨⟨h1, h2, h3, fun _ => hreq.2.2.2⟩, trivial⟩
      | END => exact ⟨hpc, trivial⟩

/-! ## Claim theorems -/

/-- C1 (counterexample): when an exception is raised during dispatch (the
`except Exception` branch of `perform_calculation`), the session is NOT
cleared — the fully populated session survives the submission attempt,
contradicting the claim that every submission outcome clears the session. -/
theorem submission_clears_session_counterexample :
    (perform_calculation fullSession (SubmitEvent.raises "BadRequest")).2 =
      fullSession ∧
    (perform_calculation fullSession (SubmitEvent.raises "BadRequest")).2.power =
      some (PyFloat.finite ⟨5, 0⟩) :=
  ⟨rfl, rfl⟩

/-- C1 (amended): after a submission attempt the conversation always ends
(the phase handler returns `END`, never remaining in a submitting state),
and the session is cleared whenever the completion call returns normally
(success, API-status error, or connection error); but when an exception is
raised during prompt construction or dispatch, the session keeps all its
fields. -/
theorem submission_session_lifecycle :
    (∀ (data : Session) (api : ApiOutcome),
      (perform_calculation data (SubmitEvent.completes api)).2 =
        Session.empty) ∧
    (∀ (data : Session) (e : String),
      (perform_calculation data (SubmitEvent.raises e)).2 = data) ∧
    (∀ (s : Session) (sub : SubmitEvent),
      (phase_input "1" sub s).2 = ChatState.END ∧
      (phase_input "3" sub s).2 = ChatState.END) :=
  ⟨fun _ _ => rfl, fun _ _ => rfl, fun _ _ => ⟨rfl, rfl⟩⟩

/-- C2 (counterexample): issuing `begin` mid-dialog does not discard the
stored power value — `start` never touches `user_data`, so the claim that
the session is reset to have no fields is false. -/
theorem begin_discards_fields_counterexample :
    step ({ Session.empty with power := some (PyFloat.finite ⟨5, 0⟩) },
        ChatState.VOLTAGE) Event.begin =
      ({ Session.empty with power := some (PyFloat.finite ⟨5, 0⟩) },
        ChatState.POWER) ∧
    (step ({ Session.empty with power := some (PyFloat.finite ⟨5, 0⟩) },
        ChatState.VOLTAGE) Event.begin).1.power =
      some (PyFloat.finite ⟨5, 0⟩) :=
  ⟨rfl, rfl⟩

/-- C2 (amended): issuing `begin` in any mid-dialog state restarts the
machine at `AwaitingPower`, but keeps all previously stored field values
unchanged (they are only overwritten as the restarted dialog revisits each
step). -/
theorem begin_restarts_keeping_fields (s : Session) (st : ChatState) :
    step (s, st) Event.begin = (s, ChatState.POWER) :=
  step_begin s st

/-- C3 (counterexample): the configuration reached by entering the dialog,
sending the valid power token `"5"`, and then issuing `begin` again is in
state `AwaitingPower` with the power field still populated — its populated
set is not the exact prefix determined by its state. -/
theorem exact_prefix_counterexample :
    Reachable midDialogRestart ∧
    midDialogRestart.2 = ChatState.POWER ∧
    fieldsVec midDialogRestart.1 = [true, false, false, false, false] ∧
    expectedVec ChatState.POWER = [false, false, false, false, false] :=
  ⟨Reachable.step _ Event.begin
      (Reachable.step _ (Event.text "5" (SubmitEvent.raises "")) Reachable.init),
   by decide, by decide, rfl⟩

/-- C3 (amended): for every reachable configuration the populated fields
form a downward-closed prefix of the validator order, and every field
strictly before the current awaiting state is populated; but the populated
set can strictly exceed the state's own prefix (after a mid-dialog `begin`
or an exception-aborted submission), so only these two directions survive
of the claimed exact-prefix invariant. -/
theorem reachable_prefix_invariant (c : Session × ChatState)
    (h : Reachable c) : prefixClosed c.1 ∧ requiredFields c.2 c.1 :=
  reachable_invariant c h

/-- Witness for `reachable_prefix_invariant` at the entry configuration. -/
theorem reachable_prefix_invariant_witness :
    prefixClosed Session.empty ∧
    requiredFields ChatState.POWER Session.empty :=
  reachable_prefix_invariant (Session.empty, ChatState.POWER) Reachable.init

/-- C4 (counterexample): the token `"nan"` parses, is not in range
(`nan > 0` is false), and yet the power validator stores it and advances —
the claim that a parsed out-of-range token leaves the session unchanged is
false. -/
theorem out_of_range_token_counterexample :
    pyFloatOfString (commaToDot "nan") = some PyFloat.nan ∧
    pyLt PyFloat.zero PyFloat.nan = false ∧
    power_input "nan" Session.empty =
      ({ Session.empty with power := some PyFloat.nan }, ChatState.VOLTAGE) :=
  ⟨by decide, rfl, rfl⟩

/-- C4 (amended): each validator is characterised by the code's IEEE
comparisons rather than by real-interval membership: a token that fails to
parse leaves session and state unchanged; a parsed token is rejected
(unchanged session and state) exactly when the validator's comparison
rejects it (`p <= 0`; `p <= 0 or p > 100`; `p <= 0 or p > 1`;
`n not in [1, 3]`) — comparisons that are all false for `nan` — and is
otherwise stored as exactly that one field while the machine advances. -/
theorem validator_transition_behavior (t : String) (s : Session)
    (sub : SubmitEvent) :
    ((pyFloatOfString (commaToDot t) = none →
        power_input t s = (s, ChatState.POWER)) ∧
     ∀ p, pyFloatOfString (commaToDot t) = some p →
       (pyLe p PyFloat.zero = true → power_input t s = (s, ChatState.POWER)) ∧
       (pyLe p PyFloat.zero = false →
         power_input t s = ({ s with power := some p }, ChatState.VOLTAGE))) ∧
    ((pyFloatOfString (commaToDot t) = none →
        voltage_input t s = (s, ChatState.VOLTAGE)) ∧
     ∀ p, pyFloatOfString (commaToDot t) = some p →
       (pyLe p PyFloat.zero = true →
         voltage_input t s = (s, ChatState.VOLTAGE)) ∧
       (pyLe p PyFloat.zero = false →
         voltage_input t s =
           ({ s with voltage := some p }, ChatState.EFFICIENCY))) ∧
    ((pyFloatOfString (commaToDot t) = none →
        efficiency_input t s = (s, ChatState.EFFICIENCY)) ∧
     ∀ p, pyFloatOfString (commaToDot t) = some p →
       ((pyLe p PyFloat.zero || pyLt PyFloat.hundred p) = true →
         efficiency_input t s = (s, ChatState.EFFICIENCY)) ∧
       ((pyLe p PyFloat.zero || pyLt PyFloat.hundred p) = false →
         efficiency_input t s =
           ({ s with efficiency := some p }, ChatState.POWER_FACTOR))) ∧
    ((pyFloatOfString (commaToDot t) = none →
        power_factor_input t s = (s, ChatState.POWER_FACTOR)) ∧
     ∀ p, pyFloatOfString (commaToDot t) = some p →
       ((pyLe p PyFloat.zero || pyLt PyFloat.one p) = true →
         power_factor_input t s = (s, ChatState.POWER_FACTOR)) ∧
       ((pyLe p PyFloat.zero || pyLt PyFloat.one p) = false →
         power_factor_input t s =
           ({ s with power_factor := some p }, ChatState.PHASE))) ∧
    ((pyIntOfString t = none → phase_input t sub s = (s, ChatState.PHASE)) ∧
     ∀ n, pyIntOfString t = some n →
       (¬(n = 1 ∨ n = 3) → phase_input t sub s = (s, ChatState.PHASE)) ∧
       ((n = 1 ∨ n = 3) →
         phase_input t sub s =
           ((perform_calculation { s with phase := some n } sub).2,
             ChatState.END))) := by
  refine ⟨⟨?_, ?_⟩, ⟨?_, ?_⟩, ⟨?_, ?_⟩, ⟨?_, ?_⟩, ⟨?_, ?_⟩⟩
  · intro h
    unfold power_input
    rw [h]
  · intro p hp
    refine ⟨fun hr => ?_, fun hr => ?_⟩ <;>
      (unfold power_input; rw [hp]; simp [hr])
  · intro h
    unfold voltage_input
    rw [h]
  · intro p hp
    refine ⟨fun hr => ?_, fun hr => ?_⟩ <;>
      (unfold voltage_input; rw [hp]; simp [hr])
  · intro h
    unfold efficiency_input
    rw [h]
  · intro p hp
    refine ⟨fun hr => ?_, fun hr => ?_⟩ <;>
      (unfold efficiency_input; rw [hp]; simp [hr])
  · intro h
    unfold power_factor_input
    rw [h]
  · intro p hp
    refine ⟨fun hr => ?_, fun hr => ?_⟩ <;>
      (unfold power_factor_input; rw [hp]; simp [hr])
  · intro h
    unfold phase_input
    rw [h]
  · intro n hn
    refine ⟨fun hv => ?_, fun hv => ?_⟩ <;>
      (unfold phase_input
       rw [hn]
       show (if ¬(n = 1 ∨ n = 3) then (s, ChatState.PHASE)
         else ((perform_calculation { s with phase := some n } sub).2,
           ChatState.END)) = _)
    · rw [if_pos hv]
    · rw [if_neg (not_not_intro hv)]

/-- Witness for `validator_transition_behavior`: an accepted power token, a
rejected non-numeric token, and a rejected phase count. -/
theorem validator_transition_behavior_witness :
    power_input "2" Session.empty =
      ({ Session.empty with power := some (PyFloat.finite ⟨2, 0⟩) },
        ChatState.VOLTAGE) ∧
    power_input "abc" Session.empty = (Session.empty, ChatState.POWER) ∧
    phase_input "2" (SubmitEvent.raises "") Session.empty =
      (Session.empty, ChatState.PHASE) :=
  ⟨((validator_transition_behavior "2" Session.empty
      (SubmitEvent.raises "")).1.2 (PyFloat.finite ⟨2, 0⟩) (by decide)).2
      (by decide),
   (validator_transition_behavior "abc" Session.empty
      (SubmitEvent.raises "")).1.1 (by decide),
   ((validator_transition_behavior "2" Session.empty
      (SubmitEvent.raises "")).2.2.2.2.2 2 (by decide)).1 (by decide)⟩

/-- C5 (confirmed): the Response Dispatcher's segments concatenate back to
the banner-prefixed answer, every segment is at most 4096 code units long,
and a banner-prefixed answer of at most 4096 units is sent as exactly one
segment. -/
theorem response_chunking_round_trip (answer : String) :
    String.join (splitLongMessage (resultBanner ++ answer)) =
      resultBanner ++ answer ∧
    (∀ seg ∈ splitLongMessage (resultBanner ++ answer), seg.length ≤ 4096) ∧
    ((resultBanner ++ answer).length ≤ 4096 →
      splitLongMessage (resultBanner ++ answer) = [resultBanner ++ answer]) :=
  ⟨splitLongMessage_join _,
   fun seg hseg => splitLongMessage_le _ seg hseg,
   fun h => splitLongMessage_short _ h⟩

/-- Witness for `response_chunking_round_trip` on a short answer. -/
theorem response_chunking_round_trip_witness :
    String.join (splitLongMessage (resultBanner ++ "42 A")) =
      resultBanner ++ "42 A" ∧
    (resultBanner ++ "42 A").length ≤ 4096 ∧
    splitLongMessage (resultBanner ++ "42 A") = [resultBanner ++ "42 A"] :=
  ⟨(response_chunking_round_trip "42 A").1,
   (response_chunking_round_trip "42 A").2.1 (resultBanner ++ "42 A")
     (by decide),
   (response_chunking_round_trip "42 A").2.2 (by decide)⟩

/-- C6 (confirmed): a non-success HTTP status yields the API-error string
carrying the numeric code, the code appears in the dispatched user-visible
text, and the session is cleared afterwards. -/
theorem api_status_error_reported (status : Nat)
    (extract : Except String String) (data : Session) (h : status ≠ 200) :
    call_deepseek_api (ApiOutcome.response status extract) =
      "❌ Ошибка API DeepSeek: " ++ toString status ∧
    (∃ pre post,
      String.join ((perform_calculation data
        (SubmitEvent.completes (ApiOutcome.response status extract))).1) =
        pre ++ (toString status ++ post)) ∧
    (perform_calculation data
      (SubmitEvent.completes (ApiOutcome.response status extract))).2 =
      Session.empty := by
  have hcall : call_deepseek_api (ApiOutcome.response status extract) =
      "❌ Ошибка API DeepSeek: " ++ toString status := by
    simp only [call_deepseek_api]
    rw [if_neg h]
  refine ⟨hcall, ⟨resultBanner ++ "❌ Ошибка API DeepSeek: ", "", ?_⟩, rfl⟩
  show String.join (splitLongMessage (resultBanner ++
    call_deepseek_api (ApiOutcome.response status extract))) = _
  rw [splitLongMessage_join, hcall, String.append_empty,
    ← String.append_assoc]

/-- Witness for `api_status_error_reported` at HTTP status 500. -/
theorem api_status_error_reported_witness :
    call_deepseek_api (ApiOutcome.response 500 (Except.error "Internal")) =
      "❌ Ошибка API DeepSeek: 500" ∧
    (perform_calculation Session.empty
      (SubmitEvent.completes
        (ApiOutcome.response 500 (Except.error "Internal")))).2 =
      Session.empty :=
  ⟨(api_status_error_reported 500 (Except.error "Internal") Session.empty
      (by decide)).1,
   (api_status_error_reported 500 (Except.error "Internal") Session.empty
      (by decide)).2.2⟩

/-- C7 (confirmed): the completion request carries the bounded timeout of 30
time-units, and any transport failure or timeout (a raised exception around
the request) yields the connection-error string carrying the underlying
cause, which appears in the dispatched user-visible text; the session is
cleared afterwards. -/
theorem connection_error_reported (cause : String) (data : Session) :
    deepseekRequest.timeout = 30 ∧
    call_deepseek_api (ApiOutcome.transportError cause) =
      "❌ Ошибка соединения с DeepSeek: " ++ cause ∧
    (∃ pre post,
      String.join ((perform_calculation data
        (SubmitEvent.completes (ApiOutcome.transportError cause))).1) =
        pre ++ (cause ++ post)) ∧
    (perform_calculation data
      (SubmitEvent.completes (ApiOutcome.transportError cause))).2 =
      Session.empty := by
  refine ⟨rfl, rfl,
    ⟨resultBanner ++ "❌ Ошибка соединения с DeepSeek: ", "", ?_⟩, rfl⟩
  show String.join (splitLongMessage (resultBanner ++
    call_deepseek_api (ApiOutcome.transportError cause))) = _
  rw [splitLongMessage_join, String.append_empty]
  show resultBanner ++ ("❌ Ошибка соединения с DeepSeek: " ++ cause) = _
  rw [String.append_assoc]

/-- Replacing commas by dots is idempotent, so a comma token is handled
exactly like its dotted form. -/
theorem commaToDot_idem (s : String) :
    commaToDot (commaToDot s) = commaToDot s := by
  unfold commaToDot
  congr 1
  show ((s.data.map fun c => if c = ',' then '.' else c).map
      fun c => if c = ',' then '.' else c) =
    s.data.map fun c => if c = ',' then '.' else c
  generalize s.data = l
  induction l with
  | nil => rfl
  | cons c cs ih =>
    simp only [List.map_cons, ih]
    congr 1
    by_cases h : c = ',' <;> simp [h]

/-- C8 (confirmed): the four decimal validators treat any token exactly as
its comma-to-dot normal form (so `"0,85"` is accepted as `0.85`), while the
phase validator applies no such pre-processing and rejects `"3,0"`. -/
theorem comma_decimal_preprocessing (t : String) (s : Session)
    (sub : SubmitEvent) :
    power_input (commaToDot t) s = power_input t s ∧
    voltage_input (commaToDot t) s = voltage_input t s ∧
    efficiency_input (commaToDot t) s = efficiency_input t s ∧
    power_factor_input (commaToDot t) s = power_factor_input t s ∧
    power_factor_input "0,85" s =
      ({ s with power_factor := some (PyFloat.finite ⟨85, 2⟩) },
        ChatState.PHASE) ∧
    power_factor_input "0.85" s =
      ({ s with power_factor := some (PyFloat.finite ⟨85, 2⟩) },
        ChatState.PHASE) ∧
    pyIntOfString "3,0" = none ∧
    phase_input "3,0" sub s = (s, ChatState.PHASE) := by
  refine ⟨?_, ?_, ?_, ?_, rfl, rfl, rfl, rfl⟩
  · unfold power_input
    rw [commaToDot_idem]
  · unfold voltage_input
    rw [commaToDot_idem]
  · unfold efficiency_input
    rw [commaToDot_idem]
  · unfold power_factor_input
    rw [commaToDot_idem]

/-- C10 (confirmed): `"nan"` is accepted, stored and advances in all four
decimal validators (the rejection comparisons are false for `nan`), while
`"inf"` is accepted by the power and voltage validators but rejected by the
efficiency and power-factor validators through their upper-bound checks. -/
theorem nonfinite_token_acceptance (s : Session) :
    pyFloatOfString "nan" = some PyFloat.nan ∧
    pyLe PyFloat.nan PyFloat.zero = false ∧
    pyLt PyFloat.hundred PyFloat.nan = false ∧
    pyLt PyFloat.one PyFloat.nan = false ∧
    power_input "nan" s =
      ({ s with power := some PyFloat.nan }, ChatState.VOLTAGE) ∧
    voltage_input "nan" s =
      ({ s with voltage := some PyFloat.nan }, ChatState.EFFICIENCY) ∧
    efficiency_input "nan" s =
      ({ s with efficiency := some PyFloat.nan }, ChatState.POWER_FACTOR) ∧
    power_factor_input "nan" s =
      ({ s with power_factor := some PyFloat.nan }, ChatState.PHASE) ∧
    pyFloatOfString "inf" = some PyFloat.inf ∧
    power_input "inf" s =
      ({ s with power := some PyFloat.inf }, ChatState.VOLTAGE) ∧
    voltage_input "inf" s =
      ({ s with voltage := some PyFloat.inf }, ChatState.EFFICIENCY) ∧
    efficiency_input "inf" s = (s, ChatState.EFFICIENCY) ∧
    power_factor_input "inf" s = (s, ChatState.POWER_FACTOR) :=
  ⟨rfl, rfl, rfl, rfl, rfl, rfl, rfl, rfl, rfl, rfl, rfl, rfl, rfl⟩

/-- C9 (confirmed): the prompt is a pure function of the five validated
values, produced by a fixed template that embeds each value once and the
phase count exactly twice (parameter list and which-formula instruction),
and the template requests the formula for the given phase count, a worked
substitution, the final current in amperes, and protective-device sizing
guidance. -/
theorem prompt_template_embedding (p v eff pf : PyFloat) (ph : Int) :
    buildPrompt p v eff pf ph =
      promptPart0 ++ pyRepr p ++ promptPart1 ++ pyRepr v ++ promptPart2 ++
      pyRepr eff ++ promptPart3 ++ pyRepr pf ++ promptPart4 ++ toString ph ++
      promptPart5 ++ toString ph ++ promptPart6 ∧
    (∃ a b, buildPrompt p v eff pf ph =
      a ++ (toString ph ++ ("-фазной сети" ++ b))) ∧
    (∃ a b, buildPrompt p v eff pf ph =
      a ++ ("Пошаговый расчет с подстановкой значений" ++ b)) ∧
    (∃ a b, buildPrompt p v eff pf ph =
      a ++ ("Итоговое значение тока в Амперах" ++ b)) ∧
    (∃ a b, buildPrompt p v eff pf ph =
      a ++ ("Рекомендации по выбору защитной аппаратуры" ++ b)) := by
  refine ⟨rfl,
    ⟨promptPart0 ++ pyRepr p ++ promptPart1 ++ pyRepr v ++ promptPart2 ++
       pyRepr eff ++ promptPart3 ++ pyRepr pf ++ promptPart4 ++ toString ph ++
       promptPart5,
     "\n        2. Пошаговый расчет с подстановкой значений\n        3. Итоговое значение тока в Амперах\n        4. Рекомендации по выбору защитной аппаратуры (автоматический выключатель, тепловое реле)\n        5. Укажи стандартные значения для подобных двигателей\n        \n        Ответ должен быть четким, технически точным и полезным для инженера.\n        Используй только русский язык в ответе.\n        ",
     ?_⟩,
    ⟨promptPart0 ++ pyRepr p ++ promptPart1 ++ pyRepr v ++ promptPart2 ++
       pyRepr eff ++ promptPart3 ++ pyRepr pf ++ promptPart4 ++ toString ph ++
       promptPart5 ++ toString ph ++ "-фазной сети\n        2. ",
     "\n        3. Итоговое значение тока в Амперах\n        4. Рекомендации по выбору защитной аппаратуры (автоматический выключатель, тепловое реле)\n        5. Укажи стандартные значения для подобных двигателей\n        \n        Ответ должен быть четким, технически точным и полезным для инженера.\n        Используй только русский язык в ответе.\n        ",
     ?_⟩,
    ⟨promptPart0 ++ pyRepr p ++ promptPart1 ++ pyRepr v ++ promptPart2 ++
       pyRepr eff ++ promptPart3 ++ pyRepr pf ++ promptPart4 ++ toString ph ++
       promptPart5 ++ toString ph ++
       "-фазной сети\n        2. Пошаговый расчет с подстановкой значений\n        3. ",
     "\n        4. Рекомендации по выбору защитной аппаратуры (автоматический выключатель, тепловое реле)\n        5. Укажи стандартные значения для подобных двигателей\n        \n        Ответ должен быть четким, технически точным и полезным для инженера.\n        Используй только русский язык в ответе.\n        ",
     ?_⟩,
    ⟨promptPart0 ++ pyRepr p ++ promptPart1 ++ pyRepr v ++ promptPart2 ++
       pyRepr eff ++ promptPart3 ++ pyRepr pf ++ promptPart4 ++ toString ph ++
       promptPart5 ++ toString ph ++
       "-фазной сети\n        2. Пошаговый расчет с подстановкой значений\n        3. Итоговое значение тока в Амперах\n        4. ",
     " (автоматический выключатель, тепловое реле)\n        5. Укажи стандартные значения для подобных двигателей\n        \n        Ответ должен быть четким, технически точным и полезным для инженера.\n        Используй только русский язык в ответе.\n        ",
     ?_⟩⟩ <;>
  · simp only [buildPrompt, promptPart0, promptPart1, promptPart2,
      promptPart3, promptPart4, promptPart5, promptPart6,
      String.append_assoc]
    rfl
